import Mathlib

/-!
# Shallow embedding of the Razen language toolchain

A verification development for the Razen interpreter: the runtime
(`src/runtime.py`: scope stack, evaluator, statement execution, function
calls, built-ins), the parser actions that matter for the verified
properties (`src/parser.py`), and the lexer's string-interpolation
bookkeeping (`src/lexer.py`).

Conventions of the embedding:
* Python numbers are modelled as `Int` (ints) and `ℚ` (floats); no claim
  below depends on IEEE-754 rounding, so rationals are an exact stand-in.
* Python exceptions are modelled by `Except RtErr`; the in-flight mutated
  interpreter state accompanies every result, so `finally` blocks can be
  rendered faithfully.  `ReturnSignal` (an exception class in the source)
  is one of the error constructors.
* Python's unbounded recursion and `while` loops are modelled with a fuel
  parameter; `RtErr.outOfFuel` is a modelling artifact, not a Python
  exception, and every recursive call spends one unit of fuel.
* The scope stack `self.scope_stack` (a Python list whose last element is
  the innermost frame) is stored innermost-first, so `push_scope` is cons
  and iteration `reversed(self.scope_stack)` is plain left-to-right order.
-/

namespace Razen

/-- A runtime value (`Value` row of the data model).  `vbuiltin` models the
bound-method objects stored for built-ins (e.g. `global_scope['input']`). -/
inductive Value where
  | vint (n : Int)
  | vfloat (q : ℚ)
  | vbool (b : Bool)
  | vstr (s : String)
  | vnull
  | vbuiltin (name : String)
deriving Repr, DecidableEq

/-- Expression AST nodes, as produced by `src/parser.py` and consumed by
`Runtime.evaluate`.  Tags follow the Python tuples: `('literal', v)`,
`('identifier', n)`, `('assign', n, e)`, `('binop', op, l, r)`,
`('unary_minus', e)`, `('not', e)`, `('call', f, args)`,
`('interpolated_string', parts)`, `('and', l, r)`, `('or', l, r)`. -/
inductive Expr where
  | lit (v : Value)
  | ident (name : String)
  | assign (name : String) (e : Expr)
  | binop (op : String) (l r : Expr)
  | unary_minus (e : Expr)
  | notE (e : Expr)
  | call (fname : String) (args : List Expr)
  | interpolated_string (parts : List Expr)
  | andE (l r : Expr)
  | orE (l r : Expr)
deriving Repr

/-- Statement AST nodes, as produced by `src/parser.py` and consumed by
`Runtime.execute_statement`.  `whenS` is the `('when', x, y, block, else)`
node built by `p_when_stmt`; `Runtime.execute_statement` has no case for
it, which matters below. -/
inductive Stmt where
  | var_decl (kw : String) (name : String) (e : Expr)
  | assignS (name : String) (e : Expr)
  | readS (name : String) (prompt : Option Expr)
  | fun_decl (name : String) (params : List String) (body : Stmt)
  | showS (e : Expr) (status : Option Expr)
  | printS (e : Expr) (status : Option Expr)
  | ifS (cond : Expr) (thenB : Stmt) (elseB : Option Stmt)
  | whenS (x y : Expr) (body : Stmt) (elseB : Option Stmt)
  | whileS (cond : Expr) (body : Stmt)
  | block (stmts : List Stmt)
  | ret (e : Option Expr)
  | callS (fname : String) (args : List Expr)
  | expression_stmt (e : Expr)
deriving Repr

/-- The Python tuple tag of a statement node (`statement_ast[0]`), used by
the source in error messages and in `execute_block`'s shape check. -/
def Stmt.tag : Stmt → String
  | .var_decl .. => "var_decl"
  | .assignS .. => "assign"
  | .readS .. => "read"
  | .fun_decl .. => "fun_decl"
  | .showS .. => "show"
  | .printS .. => "print"
  | .ifS .. => "if"
  | .whenS .. => "when"
  | .whileS .. => "while"
  | .block .. => "block"
  | .ret .. => "return"
  | .callS .. => "call"
  | .expression_stmt .. => "expression_stmt"

/-- One scope frame: a Python dict as an insertion-ordered association
list with unique keys. -/
abbrev Scope := List (String × Value)

/-- Python dict assignment `d[k] = v`: overwrite in place if the key is
present, else append at the end. -/
def dictInsert (d : Scope) (k : String) (v : Value) : Scope :=
  if d.any (fun p => p.1 = k) then
    d.map (fun p => if p.1 = k then (k, v) else p)
  else
    d ++ [(k, v)]

/-- A user function definition as stored in `Runtime.functions`. -/
structure FunDef where
  params : List String
  body : Stmt
deriving Repr

/-- Runtime errors: the Python exception classes that cross function
boundaries in `src/runtime.py`, plus `returnSignal` (the `ReturnSignal`
exception) and the fuel artifact. -/
inductive RtErr where
  | nameError (msg : String)
  | typeError (msg : String)
  | zeroDivisionError (msg : String)
  | notImplementedError (msg : String)
  | runtimeError (msg : String)
  | returnSignal (v : Value)
  | outOfFuel
deriving Repr, DecidableEq

/-- The mutable interpreter state: the scope stack (innermost frame
first; the global frame is the last element), the flat user-function
table, the stdout chunks written so far, the stderr diagnostics, and the
pending console-input lines. -/
structure RtState where
  scopes : List Scope
  functions : List (String × FunDef)
  output : List String
  errlog : List String
  stdin : List String
deriving Repr

/-- The fixed built-in table keys: `{'print', 'show', 'input'}`. -/
def isBuiltinName (n : String) : Bool :=
  n = "print" || n = "show" || n = "input"

/-- `Runtime.__init__`: one global frame, pre-seeded with
`global_scope['input'] = self._builtin_input`; empty function table. -/
def initState (stdin : List String := []) : RtState :=
  { scopes := [[("input", Value.vbuiltin "input")]]
    functions := []
    output := []
    errlog := []
    stdin := stdin }

/-- `Runtime.report_error` (with no location): prints
`Runtime Error: {message}` on the diagnostics channel. -/
def report_error (st : RtState) (msg : String) : RtState :=
  { st with errlog := st.errlog ++ ["Runtime Error: " ++ msg] }

/-- A warning printed to stderr (not routed through `report_error`). -/
def warn (st : RtState) (msg : String) : RtState :=
  { st with errlog := st.errlog ++ [msg] }

/-- `Runtime.push_scope`: append a fresh empty frame. -/
def push_scope (st : RtState) : RtState :=
  { st with scopes := [] :: st.scopes }

/-- `Runtime.pop_scope`: remove the innermost frame; popping the global
frame raises `RuntimeError`. -/
def pop_scope (st : RtState) : Except RtErr RtState :=
  if st.scopes.length ≤ 1 then
    .error (.runtimeError "Internal Error: Attempted to pop global scope.")
  else
    .ok { st with scopes := st.scopes.tail }

/-- `Runtime.set_variable`: write into the current (innermost) frame. -/
def set_variable (st : RtState) (name : String) (v : Value) : RtState :=
  match st.scopes with
  | [] => st
  | sc :: rest => { st with scopes := dictInsert sc name v :: rest }

/-- The scan of `Runtime.update_variable` over the frames
(innermost-first); `none` when no frame contains the name. -/
def updateFrames (frames : List Scope) (name : String) (v : Value) :
    Option (List Scope) :=
  match frames with
  | [] => none
  | sc :: rest =>
    if (sc.lookup name).isSome then some (dictInsert sc name v :: rest)
    else (updateFrames rest name v).map (sc :: ·)

/-- `Runtime.update_variable`: mutate the innermost frame containing the
name; `NameError` if absent everywhere. -/
def update_variable (st : RtState) (name : String) (v : Value) :
    Except RtErr RtState :=
  match updateFrames st.scopes name v with
  | some frames => .ok { st with scopes := frames }
  | none => .error (.nameError
      ("Runtime Error: Variable '" ++ name ++ "' is not defined."))

/-- The scan of `Runtime.get_variable` over the frames (innermost
first). -/
def lookupFrames (frames : List Scope) (name : String) : Option Value :=
  match frames with
  | [] => none
  | sc :: rest =>
    match sc.lookup name with
    | some v => some v
    | none => lookupFrames rest name

/-- `Runtime.get_variable`: innermost-to-outermost frame scan, then the
built-in table, then `NameError`.  Reading never mutates the state. -/
def get_variable (st : RtState) (name : String) : Except RtErr Value :=
  match lookupFrames st.scopes name with
  | some v => .ok v
  | none =>
    if isBuiltinName name then .ok (.vbuiltin name)
    else .error (.nameError
      ("Runtime Error: Variable '" ++ name ++ "' is not defined."))

/-- `Runtime.define_function`: built-in names cannot be redefined
(`NameError`); redefining a user function only warns. -/
def define_function (st : RtState) (name : String) (params : List String)
    (body : Stmt) : Except RtErr RtState :=
  if isBuiltinName name then
    .error (.nameError
      ("Runtime Error: Cannot redefine built-in function '" ++ name ++ "'."))
  else
    let st :=
      if (st.functions.lookup name).isSome then
        warn st ("Warning: Function '" ++ name ++ "' redefined.")
      else st
    .ok { st with functions :=
      (name, ⟨params, body⟩) ::
        st.functions.filter (fun p => ¬ p.1 = name) }

/-- Python numbers (`int`, `float`, `bool`) as used by `operator.*`:
`bool` is a subclass of `int`. -/
inductive PyNum where
  | i (n : Int)
  | f (q : ℚ)
deriving Repr, DecidableEq

/-- Numeric view of a value, if it has one. -/
def toNum : Value → Option PyNum
  | .vint n => some (.i n)
  | .vfloat q => some (.f q)
  | .vbool b => some (.i (if b then 1 else 0))
  | _ => none

/-- The rational carried by a `PyNum`. -/
def PyNum.q : PyNum → ℚ
  | .i n => (n : ℚ)
  | .f q => q

/-- Python `str()` of a value.  The decimal rendering of non-integral
floats is approximated (no claim below evaluates it). -/
def pyStr : Value → String
  | .vint n => toString n
  | .vfloat q => if q.den = 1 then toString q.num ++ ".0"
      else toString q.num ++ "/" ++ toString q.den
  | .vbool b => if b then "True" else "False"
  | .vstr s => s
  | .vnull => "None"
  | .vbuiltin n => "<bound method Runtime._builtin_" ++ n ++ ">"

/-- Python truthiness, as used by `if`/`while` conditions and `and`/`or`. -/
def pyTruthy : Value → Bool
  | .vint n => n ≠ 0
  | .vfloat q => q ≠ 0
  | .vbool b => b
  | .vstr s => s ≠ ""
  | .vnull => false
  | .vbuiltin _ => true

/-- Python `==` across the value domain: numbers (including booleans)
compare by numeric value, strings by content, `None` only to itself. -/
def pyEq (l r : Value) : Bool :=
  match toNum l, toNum r with
  | some a, some b => a.q = b.q
  | _, _ =>
    match l, r with
    | .vstr s, .vstr t => s = t
    | .vnull, .vnull => true
    | .vbuiltin a, .vbuiltin b => a = b
    | _, _ => false

/-- `operator.add`/`sub`/`mul`: int results stay ints, floats spread. -/
def numArith (f : ℚ → ℚ → ℚ) (fi : Int → Int → Int) (op : String)
    (l r : Value) : Except RtErr Value :=
  match toNum l, toNum r with
  | some (.i a), some (.i b) => .ok (.vint (fi a b))
  | some a, some b => .ok (.vfloat (f a.q b.q))
  | _, _ => .error (.typeError
      ("unsupported operand type(s) for " ++ op))

/-- `operator.truediv`: always a float. -/
def numTrueDiv (l r : Value) : Except RtErr Value :=
  match toNum l, toNum r with
  | some a, some b => .ok (.vfloat (a.q / b.q))
  | _, _ => .error (.typeError "unsupported operand type(s) for /")

/-- Python `%` (floor-based remainder; `Int.fmod` matches it on ints). -/
def numMod (l r : Value) : Except RtErr Value :=
  match toNum l, toNum r with
  | some (.i a), some (.i b) => .ok (.vint (Int.fmod a b))
  | some a, some b => .ok (.vfloat (a.q - b.q * ⌊a.q / b.q⌋))
  | _, _ => .error (.typeError "unsupported operand type(s) for %")

/-- `operator.lt` and friends: numbers by value, strings
lexicographically, anything else a `TypeError`. -/
def numCmp (fq : ℚ → ℚ → Bool) (fs : String → String → Bool)
    (op : String) (l r : Value) : Except RtErr Value :=
  match toNum l, toNum r with
  | some a, some b => .ok (.vbool (fq a.q b.q))
  | _, _ =>
    match l, r with
    | .vstr s, .vstr t => .ok (.vbool (fs s t))
    | _, _ => .error (.typeError
        ("'" ++ op ++ "' not supported between operands"))

/-- Python `x and y`: `y` if `x` is truthy, else `x` itself.  (In the
`'binop'` path of `Runtime.evaluate` both operands are already
evaluated before this is applied.) -/
def pyAnd (l r : Value) : Value :=
  if pyTruthy l then r else l

/-- Python `x or y`: `x` itself if truthy, else `y`. -/
def pyOr (l r : Value) : Value :=
  if pyTruthy l then l else r

/-- `operator.neg`: numbers only (booleans coerce to ints). -/
def pyNeg : Value → Except RtErr Value
  | v =>
    match toNum v with
    | some (.i a) => .ok (.vint (-a))
    | some (.f q) => .ok (.vfloat (-q))
    | none => .error (.typeError "bad operand type for unary -")

/-- The `'binop'` arm of `Runtime.evaluate`, applied after both operands
have been evaluated.  `/` and `%` test `right_val == 0` (Python `==`,
so `0.0` and `False` also trip it) before dividing. -/
def evalBinop (op : String) (lv rv : Value) : Except RtErr Value :=
  match op with
  | "+" =>
    if lv matches .vstr _ then .ok (.vstr (pyStr lv ++ pyStr rv))
    else if rv matches .vstr _ then .ok (.vstr (pyStr lv ++ pyStr rv))
    else numArith (· + ·) (· + ·) "+" lv rv
  | "-" => numArith (· - ·) (· - ·) "-" lv rv
  | "*" => numArith (· * ·) (· * ·) "*" lv rv
  | "/" =>
    if pyEq rv (.vint 0) then
      .error (.zeroDivisionError "Runtime Error: Division by zero.")
    else numTrueDiv lv rv
  | "%" =>
    if pyEq rv (.vint 0) then
      .error (.zeroDivisionError "Runtime Error: Modulo by zero.")
    else numMod lv rv
  | "==" => .ok (.vbool (pyEq lv rv))
  | "!=" => .ok (.vbool (! pyEq lv rv))
  | "<" => numCmp (fun a b => a < b) (fun s t => s < t) "<" lv rv
  | "<=" => numCmp (fun a b => a ≤ b) (fun s t => s < t || s = t) "<=" lv rv
  | ">" => numCmp (fun a b => b < a) (fun s t => t < s) ">" lv rv
  | ">=" => numCmp (fun a b => b ≤ a) (fun s t => t < s || s = t) ">=" lv rv
  | "&&" => .ok (pyAnd lv rv)
  | "||" => .ok (pyOr lv rv)
  | _ => .error (.notImplementedError
      ("Binary operator '" ++ op ++ "' not implemented."))

/-- `Runtime._builtin_print`: space-separated `str()` of the arguments,
one line; returns `None`. -/
def builtin_print (st : RtState) (args : List Value) : Value × RtState :=
  (.vnull,
   { st with output :=
      st.output ++ [String.intercalate " " (args.map pyStr) ++ "\n"] })

/-- `Runtime._builtin_input` once the prompt string is known: a blank
line, the prompt, then one line from stdin (an EOF is reported and an
empty string returned). -/
def builtin_input_core (st : RtState) (prompt : String) :
    Value × RtState :=
  let st := { st with output := st.output ++ ["\n", prompt] }
  match st.stdin with
  | line :: rest => (.vstr line, { st with stdin := rest })
  | [] => (.vstr "",
      report_error st "Error reading input: EOF when reading a line")

/-- Dispatch of `Runtime._call_function` step 1: the built-in table.
No arity check is performed on built-ins. -/
def run_builtin (st : RtState) (name : String) (args : List Value) :
    (Except RtErr Value) × RtState :=
  match name with
  | "show" => let (v, st') := builtin_print st args; (.ok v, st')
  | "input" =>
    let prompt := match args.head? with | some a => pyStr a | none => ""
    let (v, st') := builtin_input_core st prompt
    (.ok v, st')
  | _ => let (v, st') := builtin_print st args; (.ok v, st')

/-- The write-back of `execute_block`'s `finally`: the tracked pairs are
stored into the frame uncovered by the pop (the `original_scope` alias). -/
def propagate (st : RtState) (tracked : List (String × Value)) : RtState :=
  match st.scopes with
  | [] => st
  | sc :: rest =>
    { st with scopes :=
        tracked.foldl (fun s p => dictInsert s p.1 p.2) sc :: rest }

mutual

/-- `Runtime.evaluate`. -/
def evaluate (fuel : Nat) (st : RtState) (e : Expr) :
    (Except RtErr Value) × RtState :=
  match fuel with
  | 0 => (.error .outOfFuel, st)
  | fuel + 1 =>
    match e with
    | .lit v => (.ok v, st)
    | .ident name => (get_variable st name, st)
    | .assign name ve =>
      match evaluate fuel st ve with
      | (.error err, st') => (.error err, st')
      | (.ok v, st') =>
        -- try update_variable first; its (only) NameError is caught and
        -- set_variable creates the binding in the current scope instead
        match update_variable st' name v with
        | .ok st'' => (.ok v, st'')
        | .error _ => (.ok v, set_variable st' name v)
    | .binop op l r =>
      match evaluate fuel st l with
      | (.error err, st1) => (.error err, st1)
      | (.ok lv, st1) =>
        match evaluate fuel st1 r with
        | (.error err, st2) => (.error err, st2)
        | (.ok rv, st2) => (evalBinop op lv rv, st2)
    | .unary_minus e1 =>
      match evaluate fuel st e1 with
      | (.error err, st') => (.error err, st')
      | (.ok v, st') => (pyNeg v, st')
    | .notE e1 =>
      match evaluate fuel st e1 with
      | (.error err, st') => (.error err, st')
      | (.ok v, st') => (.ok (.vbool (! pyTruthy v)), st')
    | .call fname args =>
      match eval_args fuel st args with
      | (.error err, st') => (.error err, st')
      | (.ok vs, st') => call_function fuel st' fname vs
    | .interpolated_string parts =>
      match eval_args fuel st parts with
      | (.error err, st') => (.error err, st')
      | (.ok vs, st') =>
        (.ok (.vstr (String.join (vs.map pyStr))), st')
    | .andE l r =>
      match evaluate fuel st l with
      | (.error err, st1) => (.error err, st1)
      | (.ok lv, st1) =>
        if pyTruthy lv then evaluate fuel st1 r
        else (.ok (.vbool false), st1)
    | .orE l r =>
      match evaluate fuel st l with
      | (.error err, st1) => (.error err, st1)
      | (.ok lv, st1) =>
        if pyTruthy lv then (.ok lv, st1)
        else evaluate fuel st1 r
termination_by structural fuel

/-- The left-to-right evaluation of an argument (or interpolation-part)
list. -/
def eval_args (fuel : Nat) (st : RtState) (es : List Expr) :
    (Except RtErr (List Value)) × RtState :=
  match fuel with
  | 0 => (.error .outOfFuel, st)
  | fuel + 1 =>
    match es with
    | [] => (.ok [], st)
    | e :: rest =>
      match evaluate fuel st e with
      | (.error err, st') => (.error err, st')
      | (.ok v, st') =>
        match eval_args fuel st' rest with
        | (.error err, st'') => (.error err, st'')
        | (.ok vs, st'') => (.ok (v :: vs), st'')
termination_by structural fuel

/-- `Runtime._call_function`: built-ins first (no arity check), then the
user table with an exact arity check; the body runs with a freshly pushed
frame which the `finally` pops on every exit path, and a `ReturnSignal`
is caught at this boundary (`None` when the body just falls off the
end).  The `local_scope` dict the source fills with the parameter
bindings is never installed — `push_scope` appends a fresh empty dict —
so parameters are unbound inside the body. -/
def call_function (fuel : Nat) (st : RtState) (name : String)
    (args : List Value) : (Except RtErr Value) × RtState :=
  match fuel with
  | 0 => (.error .outOfFuel, st)
  | fuel + 1 =>
    if isBuiltinName name then run_builtin st name args
    else
      match st.functions.lookup name with
      | some fd =>
        if args.length ≠ fd.params.length then
          (.error (.typeError
            ("Runtime Error: Function '" ++ name ++ "' expected "
              ++ toString fd.params.length ++ " arguments, but got "
              ++ toString args.length ++ ".")), st)
        else
          let p := execute_block fuel (push_scope st) fd.body
          match pop_scope p.2 with
          | .error pe => (.error pe, p.2)
          | .ok st'' =>
            match p.1 with
            | .ok _ => (.ok .vnull, st'')
            | .error (.returnSignal v) => (.ok v, st'')
            | .error err => (.error err, st'')
      | none =>
        (.error (.nameError
          ("Runtime Error: Function '" ++ name ++ "' is not defined.")), st)
termination_by structural fuel

/-- `Runtime.execute_statement`. -/
def execute_statement (fuel : Nat) (st : RtState) (s : Stmt) :
    (Except RtErr Unit) × RtState :=
  match fuel with
  | 0 => (.error .outOfFuel, st)
  | fuel + 1 =>
    match s with
    | .var_decl _kw name e =>
      match evaluate fuel st e with
      | (.error err, st') => (.error err, st')
      | (.ok v, st') =>
        let st' :=
          if ((st'.scopes.headD []).lookup name).isSome then
            warn st' ("Warning: Variable '" ++ name
              ++ "' redeclared in the same scope.")
          else st'
        (.ok (), set_variable st' name v)
    | .assignS name e =>
      -- standalone assignment statement: update only, no creation
      match evaluate fuel st e with
      | (.error err, st') => (.error err, st')
      | (.ok v, st') =>
        match update_variable st' name v with
        | .ok st'' => (.ok (), st'')
        | .error err => (.error err, st')
    | .readS name prompt =>
      match prompt with
      | some pe =>
        match evaluate fuel st pe with
        | (.error err, st') => (.error err, st')
        | (.ok pv, st') =>
          let (v, st'') := builtin_input_core st' (pyStr pv)
          (.ok (), set_variable st'' name v)
      | none =>
        let (v, st'') := builtin_input_core st ""
        (.ok (), set_variable st'' name v)
    | .fun_decl name params body =>
      match define_function st name params body with
      | .ok st' => (.ok (), st')
      | .error err => (.error err, st)
    | .showS e status | .printS e status =>
      match evaluate fuel st e with
      | (.error err, st') => (.error err, st')
      | (.ok v, st') =>
        match status with
        | some se =>
          match evaluate fuel st' se with
          | (.error err, st'') => (.error err, st'')
          | (.ok _, st'') =>
            let q := builtin_print st'' [v]
            (.ok (), q.2)
        | none =>
          let q := builtin_print st' [v]
          (.ok (), q.2)
    | .ifS cond thenB elseB =>
      match evaluate fuel st cond with
      | (.error err, st') => (.error err, st')
      | (.ok cv, st') =>
        if pyTruthy cv then execute_block fuel st' thenB
        else
          match elseB with
          | none => (.ok (), st')
          | some eb =>
            match eb with
            | .ifS _ _ _ => execute_statement fuel st' eb
            | _ => execute_block fuel st' eb
    | .whenS _ _ _ _ =>
      -- execute_statement has no 'when' arm: the node falls through to
      -- the final else, which prints a warning and executes nothing
      (.ok (), warn st
        ("Warning: Runtime execution not implemented for statement type: "
          ++ s.tag))
    | .whileS cond body =>
      match evaluate fuel st cond with
      | (.error err, st') => (.error err, st')
      | (.ok cv, st') =>
        if pyTruthy cv then
          match execute_block fuel st' body with
          | (.error err, st'') => (.error err, st'')
          | (.ok _, st'') =>
            execute_statement fuel st'' (.whileS cond body)
        else (.ok (), st')
    | .block _ => execute_block fuel st s
    | .ret e =>
      match e with
      | some ve =>
        match evaluate fuel st ve with
        | (.error err, st') => (.error err, st')
        | (.ok v, st') => (.error (.returnSignal v), st')
      | none => (.error (.returnSignal .vnull), st)
    | .callS fname args =>
      match evaluate fuel st (.call fname args) with
      | (.error err, st') => (.error err, st')
      | (.ok _, st') => (.ok (), st')
    | .expression_stmt e =>
      match evaluate fuel st e with
      | (.error err, st') => (.error err, st')
      | (.ok _, st') => (.ok (), st')
termination_by structural fuel

/-- The statement loop of `execute_block` (and of `run_program`). -/
def execute_statements (fuel : Nat) (st : RtState) (ss : List Stmt) :
    (Except RtErr Unit) × RtState :=
  match fuel with
  | 0 => (.error .outOfFuel, st)
  | fuel + 1 =>
    match ss with
    | [] => (.ok (), st)
    | s :: rest =>
      match execute_statement fuel st s with
      | (.error err, st') => (.error err, st')
      | (.ok _, st') => execute_statements fuel st' rest
termination_by structural fuel

/-- `Runtime.execute_block`: shape check, one pushed frame, the
statement loop, and a `finally` that pops the frame and writes the
tracked variables (the loops over the literal list `['new_money']`)
back into the enclosing frame.  On an abnormal exit the two read-back
loops are skipped, so only the pre-existing `new_money` value (if any)
is written back. -/
def execute_block (fuel : Nat) (st : RtState) (blk : Stmt) :
    (Except RtErr Unit) × RtState :=
  match fuel with
  | 0 => (.error .outOfFuel, st)
  | fuel + 1 =>
    match blk with
    | .block stmts =>
      let original := st.scopes.headD []
      let tracked0 : List (String × Value) :=
        match original.lookup "new_money" with
        | some v => [("new_money", v)]
        | none => []
      let p := execute_statements fuel (push_scope st) stmts
      match p.1 with
      | .ok _ =>
        let cur := p.2.scopes.headD []
        let tracked1 := tracked0.map (fun q =>
          match cur.lookup q.1 with
          | some v => (q.1, v)
          | none => q)
        let tracked2 :=
          if (cur.lookup "new_money").isSome
              && (tracked1.lookup "new_money").isNone then
            tracked1 ++ [("new_money", (cur.lookup "new_money").getD .vnull)]
          else tracked1
        match pop_scope p.2 with
        | .error pe => (.error pe, p.2)
        | .ok st2 => (.ok (), propagate st2 tracked2)
      | .error err =>
        match pop_scope p.2 with
        | .error pe => (.error pe, p.2)
        | .ok st2 => (.error err, propagate st2 tracked0)
    | _ =>
      (.ok (), report_error st ("Expected a block AST, got " ++ blk.tag))
termination_by structural fuel

end

/-- `Runtime.run_program`: the statement loop inside the top-level
`try`, with one handler per exception class.  A `ReturnSignal` escaping
to here is the "return outside of a function" diagnostic; any error
stops the remaining statements. -/
def run_program (fuel : Nat) (st : RtState) (stmts : List Stmt) :
    RtState :=
  match execute_statements fuel st stmts with
  | (.ok _, st') => st'
  | (.error (.returnSignal _), st') =>
    report_error st' "'return' statement used outside of a function."
  | (.error (.nameError m), st') => report_error st' m
  | (.error (.typeError m), st') => report_error st' ("Type Error: " ++ m)
  | (.error (.zeroDivisionError m), st') => report_error st' m
  | (.error (.notImplementedError m), st') => report_error st' m
  | (.error (.runtimeError m), st') =>
    report_error st'
      ("An unexpected runtime error occurred: RuntimeError: " ++ m)
  | (.error .outOfFuel, st') => st'

/-! ## Parser actions (`src/parser.py`)

Only the yacc actions the verified properties depend on are embedded;
each mirrors the tuple its Python counterpart builds. -/

/-- `p_expression_binop`: every arithmetic, comparison and logical
operator — `&&` and `||` included — builds a `('binop', op, l, r)`
node.  (`p[2]` is the matched token text, so `&&`/`||` arrive here as
those spellings.) -/
def p_expression_binop (op : String) (l r : Expr) : Expr :=
  .binop op l r

/-- `p_when_stmt`: `when X is Y block else` builds
`('when', X, Y, block, else)`. -/
def p_when_stmt (x y : Expr) (body : Stmt) (elseB : Option Stmt) :
    Stmt :=
  .whenS x y body elseB

/-- `p_expression_stmt`: an `assign` or `call` expression used as a
statement becomes the statement node itself; anything else is wrapped
in `('expression_stmt', e)`. -/
def p_expression_stmt (e : Expr) : Stmt :=
  match e with
  | .assign n v => .assignS n v
  | .call f a => .callS f a
  | _ => .expression_stmt e

/-! ## Lexer interpolation bookkeeping (`src/lexer.py`)

The `Lexer` class keeps a PLY mode stack (`INITIAL` /
`interpolation`), a per-string counter stack `interpolation_stack`,
and a single `bracket_count`.  The four rules below are the ones that
touch them; each is embedded as a pure transition on that state,
returning the token kind it emits. -/

/-- The token kinds the embedded rules can emit. -/
inductive TokKind where
  | STRING_START
  | INTERPOL_START
  | INTERPOL_END
  | LBRACE
  | RBRACE
deriving Repr, DecidableEq

/-- The lexer-state fields touched by the interpolation rules. -/
structure LexState where
  curMode : String
  modeStack : List String
  interpolation_stack : List Int
  bracket_count : Int
deriving Repr, DecidableEq

/-- The state after `Lexer.tokenize`'s resets. -/
def lexInit : LexState :=
  { curMode := "INITIAL", modeStack := [],
    interpolation_stack := [], bracket_count := 0 }

/-- PLY `push_state`: remember the current mode, switch to the new one. -/
def lex_push_state (m : String) (ls : LexState) : LexState :=
  { ls with modeStack := ls.curMode :: ls.modeStack, curMode := m }

/-- PLY `pop_state`: return to the remembered mode. -/
def lex_pop_state (ls : LexState) : LexState :=
  match ls.modeStack with
  | [] => ls
  | m :: rest => { ls with curMode := m, modeStack := rest }

/-- `t_STRING_START` (rule for `"`): push a fresh per-string counter. -/
def t_STRING_START (ls : LexState) : TokKind × LexState :=
  (.STRING_START,
   { ls with interpolation_stack := 0 :: ls.interpolation_stack })

/-- `t_INTERPOL_START` (rule for a `${`): inside a string it increments
the top of `interpolation_stack` — not `bracket_count` — and pushes the
`interpolation` mode — not the normal mode. -/
def t_INTERPOL_START (ls : LexState) : TokKind × LexState :=
  match ls.interpolation_stack with
  | c :: rest =>
    (.INTERPOL_START,
     lex_push_state "interpolation"
       { ls with interpolation_stack := (c + 1) :: rest })
  | [] => (.INTERPOL_START, ls)

/-- `t_INITIAL_LBRACE` (rule for `{`): bump `bracket_count` when a
string is open. -/
def t_INITIAL_LBRACE (ls : LexState) : TokKind × LexState :=
  if ls.interpolation_stack.isEmpty then (.LBRACE, ls)
  else (.LBRACE, { ls with bracket_count := ls.bracket_count + 1 })

/-- `t_INITIAL_INTERPOL_END` (rule for `}`): outside any string it is a
plain `RBRACE`; otherwise `bracket_count` is decremented and only an
exact zero pops the mode and emits `INTERPOL_END`. -/
def t_INITIAL_INTERPOL_END (ls : LexState) : TokKind × LexState :=
  if ls.interpolation_stack.isEmpty then (.RBRACE, ls)
  else
    let ls1 := { ls with bracket_count := ls.bracket_count - 1 }
    if ls1.bracket_count = 0 then (.INTERPOL_END, lex_pop_state ls1)
    else (.RBRACE, ls1)

/-! ## Supporting lemmas -/

/-- The frame scan of `get_variable` returns the first hit in
innermost-to-outermost order, i.e. the nearest enclosing binding. -/
theorem lookupFrames_eq_findSome? (frames : List Scope) (name : String) :
    lookupFrames frames name =
      frames.findSome? (fun sc => sc.lookup name) := by
  induction frames with
  | nil => rfl
  | cons sc rest ih =>
    rw [List.findSome?_cons]
    unfold lookupFrames
    cases h : sc.lookup name <;> simp [h, ih]

/-- The index of the innermost frame containing a name (frames listed
innermost first). -/
def nearestIdx (frames : List Scope) (name : String) : Option Nat :=
  match frames with
  | [] => none
  | sc :: rest =>
    if (sc.lookup name).isSome then some 0
    else (nearestIdx rest name).map (· + 1)

/-- `nearestIdx` means what it says: the returned frame contains the
name and every strictly more local frame does not. -/
theorem nearestIdx_is_nearest (frames : List Scope) (name : String)
    (i : Nat) (h : nearestIdx frames name = some i) :
    i < frames.length ∧ ((frames.getD i []).lookup name).isSome = true ∧
      ∀ j, j < i → ((frames.getD j []).lookup name).isSome = false := by
  induction frames generalizing i with
  | nil => exact absurd h (by simp [nearestIdx])
  | cons sc rest ih =>
    by_cases hs : (sc.lookup name).isSome = true
    · unfold nearestIdx at h
      rw [if_pos hs] at h
      injection h with h
      subst h
      exact ⟨by simp, by rw [List.getD_cons_zero]; exact hs,
        fun j hj => absurd hj (Nat.not_lt_zero j)⟩
    · unfold nearestIdx at h
      rw [if_neg hs] at h
      cases hn : nearestIdx rest name with
      | none => rw [hn] at h; exact absurd h (by simp)
      | some i' =>
        rw [hn, Option.map_some'] at h
        injection h with h
        subst h
        obtain ⟨h1, h2, h3⟩ := ih i' hn
        refine ⟨by simp only [List.length_cons]; omega,
          by rw [List.getD_cons_succ]; exact h2, ?_⟩
        intro j hj
        cases j with
        | zero =>
          rw [List.getD_cons_zero]
          simpa only [Bool.not_eq_true] using hs
        | succ j' =>
          rw [List.getD_cons_succ]
          exact h3 j' (by omega)

/-- `update_variable`'s scan rewrites exactly the nearest frame
containing the name, and fails exactly when no frame contains it. -/
theorem updateFrames_eq_nearest (frames : List Scope) (name : String)
    (v : Value) :
    updateFrames frames name v =
      (nearestIdx frames name).map
        (fun i => frames.set i (dictInsert (frames.getD i []) name v)) := by
  induction frames with
  | nil => rfl
  | cons sc rest ih =>
    by_cases hs : (sc.lookup name).isSome
    · simp [updateFrames, nearestIdx, hs]
    · simp [updateFrames, nearestIdx, hs, ih, Option.map_map]
      cases hn : nearestIdx rest name with
      | none => simp
      | some i => simp [Function.comp, List.set_cons_succ, List.getD_cons_succ]

/-! ## The claims -/

/-- C1: the claim states that block exit removes exactly the block's
frame and modifies no enclosing frame.  The code contradicts it: the
hardcoded tracked-variable lists in `execute_block` copy a `new_money`
binding created inside the block into the enclosing frame after the
block's frame is popped.  Executing the bare block
`{ let new_money = 42 }` from the initial state leaves `new_money`
bound to `42` in the surviving global frame. -/
theorem block_leaks_new_money :
    (execute_block 6 initState
        (.block [.var_decl "let" "new_money" (.lit (.vint 42))])) =
      (.ok (),
       { initState with scopes :=
          [[("input", .vbuiltin "input"), ("new_money", .vint 42)]] }) ∧
    (execute_block 6 initState
        (.block [.var_decl "let" "other_name" (.lit (.vint 42))])) =
      (.ok (), initState) :=
  ⟨rfl, rfl⟩

/-- C2: evaluating an identifier resolves to the nearest (innermost)
frame containing the name, scanning innermost to outermost; absent
everywhere, it falls back to the built-in table; absent there too it is
a `NameError`; and the state is returned unchanged, so lookup never
creates any binding. -/
theorem identifier_resolution_nearest (fuel : Nat) (st : RtState)
    (name : String) :
    evaluate (fuel + 1) st (.ident name) =
      ((match st.scopes.findSome? (fun sc => sc.lookup name) with
        | some v => .ok v
        | none =>
          if isBuiltinName name then .ok (.vbuiltin name)
          else .error (.nameError
            ("Runtime Error: Variable '" ++ name ++ "' is not defined."))),
       st) := by
  show (get_variable st name, st) = _
  unfold get_variable
  rw [lookupFrames_eq_findSome?]

/-- C3: a call of a user-defined function (arity matching) runs the body
in a freshly pushed frame; whatever the body does — fall off the end,
raise a `ReturnSignal` from arbitrary nesting depth, or fail — the frame
is popped before the boundary yields: the signalled value on return,
`null` on normal completion, the error otherwise.  A `ReturnSignal`
reaching `run_program` is reported as the return-outside-function error
and the remaining statements do not run. -/
theorem call_return_unwinds (fuel : Nat) (st : RtState) (name : String)
    (args : List Value) (fd : FunDef)
    (hb : isBuiltinName name = false)
    (hf : st.functions.lookup name = some fd)
    (ha : args.length = fd.params.length) :
    (call_function (fuel + 1) st name args =
      (let p := execute_block fuel (push_scope st) fd.body
       match pop_scope p.2 with
       | .error pe => (.error pe, p.2)
       | .ok st'' =>
         match p.1 with
         | .ok _ => (.ok .vnull, st'')
         | .error (.returnSignal v) => (.ok v, st'')
         | .error err => (.error err, st''))) ∧
    ∀ (fuel2 : Nat) (st2 stE : RtState) (prog : List Stmt) (v : Value),
      execute_statements fuel2 st2 prog = (.error (.returnSignal v), stE) →
      run_program fuel2 st2 prog =
        report_error stE "'return' statement used outside of a function." := by
  constructor
  · show (if isBuiltinName name then _ else _) = _
    rw [hb]
    simp only [Bool.false_eq_true, if_false, hf, ha, ne_eq,
      not_true_eq_false]
  · intro fuel2 st2 stE prog v h
    unfold run_program
    rw [h]

/-- C4: calling a user-defined function with the wrong number of
arguments signals the arity `TypeError` and returns the state exactly
as it was at the call: no frame is pushed and no effect of the body
(output, bindings, function table) happens. -/
theorem arity_mismatch_no_execution (fuel : Nat) (st : RtState)
    (name : String) (args : List Value) (fd : FunDef)
    (hb : isBuiltinName name = false)
    (hf : st.functions.lookup name = some fd)
    (ha : args.length ≠ fd.params.length) :
    call_function (fuel + 1) st name args =
      (.error (.typeError
        ("Runtime Error: Function '" ++ name ++ "' expected "
          ++ toString fd.params.length ++ " arguments, but got "
          ++ toString args.length ++ ".")), st) := by
  show (if isBuiltinName name then _ else _) = _
  rw [hb]
  simp only [Bool.false_eq_true, if_false, hf, ha, ne_eq,
    not_false_eq_true, if_true]

/-- C5: whenever the right operand of a binary `/` or `%` evaluates to
zero (integer or float), evaluation signals `DivisionByZero` with the
corresponding message and produces no numeric result. -/
theorem div_mod_by_zero_signals (fuel : Nat) (st st1 st2 : RtState)
    (l r : Expr) (lv rv : Value)
    (hl : evaluate fuel st l = (.ok lv, st1))
    (hr : evaluate fuel st1 r = (.ok rv, st2))
    (hz : rv = .vint 0 ∨ rv = .vfloat 0) :
    evaluate (fuel + 1) st (.binop "/" l r) =
      (.error (.zeroDivisionError "Runtime Error: Division by zero."), st2) ∧
    evaluate (fuel + 1) st (.binop "%" l r) =
      (.error (.zeroDivisionError "Runtime Error: Modulo by zero."), st2) := by
  have key : ∀ op : String, evaluate (fuel + 1) st (.binop op l r) =
      (evalBinop op lv rv, st2) := by
    intro op
    show (match evaluate fuel st l with
      | (Except.error err, st1) => (Except.error err, st1)
      | (Except.ok lv, st1) =>
        match evaluate fuel st1 r with
        | (Except.error err, st2) => (Except.error err, st2)
        | (Except.ok rv, st2) => (evalBinop op lv rv, st2)) = _
    rw [hl]
    show (match evaluate fuel st1 r with
      | (Except.error err, st2) => (Except.error err, st2)
      | (Except.ok rv, st2) => (evalBinop op lv rv, st2)) = _
    rw [hr]
  rcases hz with rfl | rfl <;>
    exact ⟨by rw [key "/"]; rfl, by rw [key "%"]; rfl⟩

/-- C6 counterexample: a standalone assignment statement to a name bound
nowhere (here `x = 5` at top level, routed through `p_expression_stmt`)
does not create a binding in the current frame — it raises `NameError`
and leaves the state untouched, refuting the claim that assignment as a
standalone statement creates a new binding when none exists. -/
theorem standalone_assign_creates_nothing :
    execute_statement 6 initState
        (p_expression_stmt (.assign "x" (.lit (.vint 5)))) =
      (.error (.nameError "Runtime Error: Variable 'x' is not defined."),
       initState) ∧
    (((execute_statement 6 initState
        (p_expression_stmt (.assign "x" (.lit (.vint 5))))).2.scopes.headD
          []).lookup "x") = none :=
  ⟨rfl, rfl⟩

/-- Rewriting the innermost frame that contains `name` (identity when
none does); the spec-side description of what a successful
`update_variable` produces. -/
def updateNearest (st' : RtState) (name : String) (v : Value) : RtState :=
  match nearestIdx st'.scopes name with
  | some i =>
    { st' with scopes :=
        st'.scopes.set i (dictInsert (st'.scopes.getD i []) name v) }
  | none => st'

/-- C6 as amended: an assignment *expression* writes the evaluated value
to the innermost existing binding of the name, creates a binding in the
current frame only when none exists anywhere, and yields the value; an
assignment used as a *standalone statement* (the parser emits the bare
`assign` node) only updates the innermost existing binding and raises
`NameError` — creating nothing — when the name is unbound everywhere. -/
theorem assign_update_or_create (fuel : Nat) (st st' : RtState)
    (name : String) (e : Expr) (v : Value)
    (he : evaluate fuel st e = (.ok v, st')) :
    evaluate (fuel + 1) st (.assign name e) =
      (.ok v,
       if (nearestIdx st'.scopes name).isSome then
         updateNearest st' name v
       else set_variable st' name v) ∧
    execute_statement (fuel + 1) st
        (p_expression_stmt (.assign name e)) =
      (if (nearestIdx st'.scopes name).isSome then
        (.ok (), updateNearest st' name v)
       else
        (.error (.nameError
          ("Runtime Error: Variable '" ++ name ++ "' is not defined.")),
         st')) := by
  have hu : update_variable st' name v =
      (if (nearestIdx st'.scopes name).isSome then
        .ok (updateNearest st' name v)
       else
        .error (.nameError
          ("Runtime Error: Variable '" ++ name ++ "' is not defined."))) := by
    unfold update_variable updateNearest
    rw [updateFrames_eq_nearest]
    cases nearestIdx st'.scopes name <;> rfl
  constructor
  · show (match evaluate fuel st e with
      | (Except.error err, st') => (Except.error err, st')
      | (Except.ok v, st') =>
        match update_variable st' name v with
        | .ok st'' => (Except.ok v, st'')
        | .error _ => (Except.ok v, set_variable st' name v)) = _
    rw [he]
    show (match update_variable st' name v with
      | .ok st'' => (Except.ok v, st'')
      | .error _ => (Except.ok v, set_variable st' name v)) = _
    rw [hu]
    cases hn : (nearestIdx st'.scopes name).isSome <;> simp [hn]
  · show (match evaluate fuel st e with
      | (Except.error err, st') => (Except.error err, st')
      | (Except.ok v, st') =>
        match update_variable st' name v with
        | .ok st'' => (Except.ok (), st'')
        | .error err => (Except.error err, st')) = _
    rw [he]
    show (match update_variable st' name v with
      | .ok st'' => (Except.ok (), st'')
      | .error err => (Except.error err, st')) = _
    rw [hu]
    cases hn : (nearestIdx st'.scopes name).isSome <;> simp [hn]

/-- C7: the claim states `&&`/`||` short-circuit so that a determining
left operand suppresses the right operand's side effects.  The code
contradicts it: `p_expression_binop` turns `&&`/`||` into `binop` nodes
whose evaluation computes both operands before applying the operator.
`false && (x = 1)` yields `false` yet binds `x`, and
`true || (y = 2)` yields `true` yet binds `y`. -/
theorem and_or_binop_evaluates_rhs :
    evaluate 6 initState
        (p_expression_binop "&&" (.lit (.vbool false))
          (.assign "x" (.lit (.vint 1)))) =
      (.ok (.vbool false),
       { initState with scopes :=
          [[("input", .vbuiltin "input"), ("x", .vint 1)]] }) ∧
    evaluate 6 initState
        (p_expression_binop "||" (.lit (.vbool true))
          (.assign "y" (.lit (.vint 2)))) =
      (.ok (.vbool true),
       { initState with scopes :=
          [[("input", .vbuiltin "input"), ("y", .vint 2)]] }) :=
  ⟨rfl, rfl⟩

/-- C8: the claim states `when X is Y { B } else { C }` branches like an
`if` on `X == Y`.  The code contradicts it: the parser emits a `when`
node (`p_when_stmt`) for which `execute_statement` has no case, so the
statement falls through to the unimplemented-node warning — for
`when 1 is 1 { show "yes" }` neither branch runs and nothing is
printed. -/
theorem when_stmt_not_executed :
    execute_statement 6 initState
        (p_when_stmt (.lit (.vint 1)) (.lit (.vint 1))
          (.block [.showS (.lit (.vstr "yes")) none]) none) =
      (.ok (), warn initState
        "Warning: Runtime execution not implemented for statement type: when") ∧
    (execute_statement 6 initState
        (p_when_stmt (.lit (.vint 1)) (.lit (.vint 1))
          (.block [.showS (.lit (.vstr "yes")) none]) none)).2.output = [] :=
  ⟨rfl, rfl⟩

/-- C9: the claim states `${` switches to normal-mode lexing and
increments a brace-depth counter which each `}` decrements, the zero
crossing emitting the interpolation-end token.  The code contradicts
it: `t_INTERPOL_START` increments the per-string `interpolation_stack`
top (the brace counter stays 0) and pushes the `interpolation` mode,
and the very first `}` of a simple `"${x}"` takes `bracket_count` to
−1, so `t_INITIAL_INTERPOL_END` retags it as a plain `RBRACE` and
never pops back. -/
theorem interpol_end_brace_mismatch :
    ((t_INTERPOL_START (t_STRING_START lexInit).2).2.bracket_count = 0) ∧
    ((t_INTERPOL_START (t_STRING_START lexInit).2).2.interpolation_stack
      = [1]) ∧
    ((t_INTERPOL_START (t_STRING_START lexInit).2).2.curMode
      = "interpolation") ∧
    (t_INITIAL_INTERPOL_END (t_INTERPOL_START (t_STRING_START lexInit).2).2 =
      (.RBRACE,
       { (t_INTERPOL_START (t_STRING_START lexInit).2).2 with
          bracket_count := -1 })) :=
  ⟨rfl, rfl, rfl, rfl⟩

/-- C10: a call to a built-in name (`print`, `show`, `input`) dispatches
to the built-in table before the user-function table is consulted —
whatever that table contains — and the built-in runs on the argument
list with no arity check, always returning a value; in particular a
built-in call never raises the arity-mismatch `TypeError`. -/
theorem builtin_dispatch_no_arity_check (fuel : Nat) (st : RtState)
    (name : String) (args : List Value)
    (hb : isBuiltinName name = true) :
    call_function (fuel + 1) st name args = run_builtin st name args ∧
    ∃ rv st', call_function (fuel + 1) st name args = (.ok rv, st') := by
  have h : call_function (fuel + 1) st name args =
      run_builtin st name args := by
    show (if isBuiltinName name then _ else _) = _
    rw [hb]
    rfl
  refine ⟨h, ?_⟩
  rw [h]
  unfold run_builtin
  split
  · exact ⟨_, _, rfl⟩
  · exact ⟨_, _, rfl⟩
  · exact ⟨_, _, rfl⟩

/-! ## Witnesses -/

/-- The state used by the C3 witness: one user function
`f() { while true { if true { return 5 } } }`. -/
def fdW : FunDef :=
  ⟨[], .block [.whileS (.lit (.vbool true))
    (.block [.ifS (.lit (.vbool true))
      (.block [.ret (some (.lit (.vint 5)))]) none])]⟩

/-- The initial state with `f` defined. -/
def stW : RtState :=
  { initState with functions := [("f", fdW)] }

/-- Witness for C3: the hypotheses hold for `f` above, the call unwinds
the nested `while`/`if` return to `5` with the scope stack restored, and
a top-level `return` is reported. -/
theorem call_return_unwinds_witness :
    isBuiltinName "f" = false ∧
    stW.functions.lookup "f" = some fdW ∧
    ([] : List Value).length = fdW.params.length ∧
    call_function 20 stW "f" [] = (.ok (.vint 5), stW) ∧
    run_program 3 initState [.ret none] =
      report_error initState
        "'return' statement used outside of a function." := by
  have h := call_return_unwinds 19 stW "f" [] fdW rfl rfl rfl
  exact ⟨rfl, rfl, rfl, h.1.trans (by rfl),
    h.2 3 initState initState [.ret none] .vnull rfl⟩

/-- Witness for C4: calling one-parameter `g` with no arguments from a
concrete state raises the arity `TypeError` and changes nothing. -/
theorem arity_mismatch_no_execution_witness :
    isBuiltinName "g" = false ∧
    ({ initState with functions := [("g", ⟨["a"], .block []⟩)] }
      : RtState).functions.lookup "g" = some ⟨["a"], .block []⟩ ∧
    ([] : List Value).length ≠ (["a"] : List String).length ∧
    call_function 9 { initState with functions := [("g", ⟨["a"], .block []⟩)] }
        "g" [] =
      (.error (.typeError
        "Runtime Error: Function 'g' expected 1 arguments, but got 0."),
       { initState with functions := [("g", ⟨["a"], .block []⟩)] }) := by
  refine ⟨rfl, rfl, by decide, ?_⟩
  exact (arity_mismatch_no_execution 8
    { initState with functions := [("g", ⟨["a"], .block []⟩)] }
    "g" [] ⟨["a"], .block []⟩ rfl rfl (by decide)).trans (by rfl)

/-- Witness for C5: `1 / 0` and `1 % 0` from the initial state. -/
theorem div_mod_by_zero_signals_witness :
    evaluate 1 initState (.lit (.vint 1)) = (.ok (.vint 1), initState) ∧
    evaluate 1 initState (.lit (.vint 0)) = (.ok (.vint 0), initState) ∧
    ((.vint 0 : Value) = .vint 0 ∨ (.vint 0 : Value) = .vfloat 0) ∧
    evaluate 2 initState (.binop "/" (.lit (.vint 1)) (.lit (.vint 0))) =
      (.error (.zeroDivisionError "Runtime Error: Division by zero."),
       initState) ∧
    evaluate 2 initState (.binop "%" (.lit (.vint 1)) (.lit (.vint 0))) =
      (.error (.zeroDivisionError "Runtime Error: Modulo by zero."),
       initState) := by
  have h := div_mod_by_zero_signals 1 initState initState initState
    (.lit (.vint 1)) (.lit (.vint 0)) (.vint 1) (.vint 0) rfl rfl
    (Or.inl rfl)
  exact ⟨rfl, rfl, Or.inl rfl, h.1, h.2⟩

/-- Witness for C6 (amended): assigning to `input` — which the global
frame binds — updates that binding in place and yields the value, both
as an expression and as a statement. -/
theorem assign_update_or_create_witness :
    evaluate 1 initState (.lit (.vint 7)) = (.ok (.vint 7), initState) ∧
    evaluate 2 initState (.assign "input" (.lit (.vint 7))) =
      (.ok (.vint 7),
       { initState with scopes := [[("input", .vint 7)]] }) ∧
    execute_statement 2 initState
        (p_expression_stmt (.assign "input" (.lit (.vint 7)))) =
      (.ok (), { initState with scopes := [[("input", .vint 7)]] }) := by
  have h := assign_update_or_create 1 initState initState "input"
    (.lit (.vint 7)) (.vint 7) rfl
  exact ⟨rfl, h.1.trans (by rfl), h.2.trans (by rfl)⟩

/-- Witness for C10: `print` called with three arguments (its statement
form always passes one) still dispatches and succeeds. -/
theorem builtin_dispatch_no_arity_check_witness :
    isBuiltinName "print" = true ∧
    (call_function 1 initState "print" [.vint 1, .vint 2, .vint 3] =
      run_builtin initState "print" [.vint 1, .vint 2, .vint 3] ∧
    ∃ rv st', call_function 1 initState "print" [.vint 1, .vint 2, .vint 3] =
      (.ok rv, st')) :=
  ⟨rfl, builtin_dispatch_no_arity_check 0 initState "print"
    [.vint 1, .vint 2, .vint 3] rfl⟩

end Razen
